import Mathlib

/-!
Verification of the lp-indexer repository (a Meteora/Helius LP transaction
monitor written in TypeScript) against its natural-language specification.

The development shallowly embeds the repository's code:

* `src/config/constants.ts` — the configuration constants;
* `src/services/heliusApi.ts` — `HeliusApiService.fetchTransactionDetails`,
  the bounded-retry detail fetcher, embedded as a pure function over an
  oracle giving the outcome of each network attempt;
* `src/services/websocketManager.ts` — `WebSocketManager`'s lifecycle
  handlers (`onopen`, `onclose`, `reconnect`, `shutdown`) embedded as
  functions on an explicit manager-state record, and `handleMessage`'s
  relevance filter over notification log lines;
* `src/services/transactionAnalyzer.ts` — `TransactionAnalyzer`'s
  analysis steps embedded as pure functions; the JavaScript throw in
  `new Date(tx.blockTime * 1000).toISOString()` is made explicit with
  `Except`.

JavaScript numbers are modelled as `ℚ`: every numeric constant involved
(1000, 1.5 = 3/2, 30000, 2000, 10000, 0.000001, balances divided by 1e9)
is an exact binary floating-point value in the ranges exercised, so the
rational model agrees with IEEE-754 double arithmetic on them.
-/

namespace LpIndexer

/-! ## Configuration constants (src/config/constants.ts) -/

def METEORA_DAMM_V1_PROGRAM_ID : String := "Eo7WjKq67rjJQSYxS6z3YkapzY3eMj6Xy8X5EQVn5UaB"

def METEORA_DAMM_V2_PROGRAM_ID : String := "LBUZKhRxPF3XUpBCjp4YzTKgLccjZhTSDM9YuVaPwxo"

/-- `METEORA_PROGRAMS`: the configured program-identifier strings. -/
def METEORA_PROGRAMS : List String :=
  [METEORA_DAMM_V1_PROGRAM_ID,
   METEORA_DAMM_V2_PROGRAM_ID,
   "24Uqj9JCLxUeoC3hGfh5W3s9FM9uCHDS2SG3LYwBpyTi",
   "whirLbMiicVdio4qvUfM5KAg6Ct8VwpYzGff3uctyCc"]

/-- The watched LP/pool account address. -/
def LP_ACCOUNT_ADDRESS : String := "8Pm2kZpnxD3hoMmt4bjStX2Pw2Z9abpbHzZxMPqxPmie"

def MAX_RETRIES : Nat := 10

def INITIAL_RETRY_DELAY : ℚ := 1000

def MAX_RETRY_DELAY : ℚ := 30000

def TXN_FETCH_MAX_RETRIES : Nat := 3

def TXN_FETCH_INITIAL_DELAY : ℚ := 2000

def TXN_FETCH_MAX_DELAY : ℚ := 10000

def TXN_FETCH_FIRST_ATTEMPT_DELAY : ℚ := 1000

/-! ## JavaScript string operations

`String.prototype.includes(pat)` is substring containment (true for the
empty pattern); `String.prototype.toLowerCase` lower-cases each character
(ASCII suffices for every pattern the code searches for). Both are given
as structurally recursive Boolean functions so that concrete instances
evaluate by `decide`. -/

/-- `startsWithChars pat text`: `pat` is a prefix of `text` (character lists). -/
def startsWithChars : List Char → List Char → Bool
  | [], _ => true
  | _ :: _, [] => false
  | p :: ps, t :: ts => p == t && startsWithChars ps ts

/-- `includesChars pat text`: `pat` occurs contiguously inside `text`. -/
def includesChars : List Char → List Char → Bool
  | pat, [] => pat.isEmpty
  | pat, t :: ts => startsWithChars pat (t :: ts) || includesChars pat ts

/-- JavaScript `s.includes(pat)`. -/
def strIncludes (s pat : String) : Bool :=
  includesChars pat.data s.data

/-- JavaScript `s.toLowerCase()` (ASCII letters). -/
def strToLower (s : String) : String :=
  ⟨s.data.map Char.toLower⟩

/-! ## The fetch-gating relevance filter
(src/services/websocketManager.ts, `WebSocketManager.handleMessage`)

```
const relevantLogs = logData.value.logs.filter((log: string) =>
  log.includes('swap') ||
  log.includes('Meteora') ||
  log.includes('DAMM') ||
  METEORA_PROGRAMS.some(programId => log.includes(programId)) ||
  log.includes(LP_ACCOUNT_ADDRESS) ||
  log.toLowerCase().includes('pool')
);
if (relevantLogs.length > 0) { ... fetchTransactionDetails(signature) ... }
```
-/

/-- The per-log-line predicate of the filter that gates the detail fetch. -/
def isRelevantLog (log : String) : Bool :=
  strIncludes log "swap" ||
  strIncludes log "Meteora" ||
  strIncludes log "DAMM" ||
  METEORA_PROGRAMS.any (fun programId => strIncludes log programId) ||
  strIncludes log LP_ACCOUNT_ADDRESS ||
  strIncludes (strToLower log) "pool"

/-- `handleMessage` fetches details iff the filtered log list is nonempty. -/
def notificationTriggersFetch (logs : List String) : Bool :=
  decide (0 < (logs.filter isRelevantLog).length)

/-- The relevance predicate exactly as claim C1 (and spec §4.1) words it:
a log line contains "swap", or a configured program identifier, or the
watched address, or case-insensitively "pool" or "liquidity". Stated for
comparison with the predicate the code implements. -/
def specClaimedRelevant (logs : List String) : Bool :=
  logs.any fun log =>
    strIncludes log "swap" ||
    METEORA_PROGRAMS.any (fun programId => strIncludes log programId) ||
    strIncludes log LP_ACCOUNT_ADDRESS ||
    strIncludes (strToLower log) "pool" ||
    strIncludes (strToLower log) "liquidity"

/-- A log line mentioning only "liquidity" is relevant per the spec's
wording but does not pass the code's fetch gate: the gating filter in
`handleMessage` checks case-insensitive "pool" but not "liquidity". -/
theorem relevance_filter_liquidity_cex :
    notificationTriggersFetch ["liquidity"] = false ∧
      specClaimedRelevant ["liquidity"] = true := by
  decide

/-- Claim C1, amended: the fetch gate returns true iff some log line
contains "swap", "Meteora", "DAMM", a configured program-identifier
string, the watched account address, or case-insensitively "pool";
case-insensitive "liquidity" is not part of the gate. -/
theorem relevance_filter_characterization (logs : List String) :
    notificationTriggersFetch logs = true ↔
      ∃ log ∈ logs,
        (strIncludes log "swap" = true ∨
         strIncludes log "Meteora" = true ∨
         strIncludes log "DAMM" = true ∨
         (∃ pid ∈ METEORA_PROGRAMS, strIncludes log pid = true) ∨
         strIncludes log LP_ACCOUNT_ADDRESS = true ∨
         strIncludes (strToLower log) "pool" = true) := by
  have hline : ∀ log : String, isRelevantLog log = true ↔
      (strIncludes log "swap" = true ∨
       strIncludes log "Meteora" = true ∨
       strIncludes log "DAMM" = true ∨
       (∃ pid ∈ METEORA_PROGRAMS, strIncludes log pid = true) ∨
       strIncludes log LP_ACCOUNT_ADDRESS = true ∨
       strIncludes (strToLower log) "pool" = true) := by
    intro log
    simp [isRelevantLog, List.any_eq_true, or_assoc]
  rw [notificationTriggersFetch, decide_eq_true_eq,
    List.length_pos_iff_exists_mem]
  constructor
  · rintro ⟨log, hlog⟩
    rw [List.mem_filter] at hlog
    exact ⟨log, hlog.1, (hline log).mp hlog.2⟩
  · rintro ⟨log, hmem, h⟩
    exact ⟨log, List.mem_filter.mpr ⟨hmem, (hline log).mpr h⟩⟩

/-- JavaScript `Math.min` on two finite numbers, written with `Rat`'s own
decidable order so that concrete runs evaluate inside the kernel. -/
def jsMin (a b : ℚ) : ℚ :=
  if a ≤ b then a else b

lemma jsMin_eq_min (a b : ℚ) : jsMin a b = min a b := by
  unfold jsMin
  split
  · exact (min_eq_left (by assumption)).symm
  · exact (min_eq_right (le_of_not_le (by assumption))).symm

/-! ## Transaction data model (src/types/transaction.ts)

`blockTime` is `Option Int`: `none` stands for the field being absent
(JavaScript `undefined`) in the JSON object Helius returns — the
interface declares `blockTime: number`, but `fetchTransactionDetails`
returns `data[0] as HeliusTransaction` without validating the field, so
an absent field flows through as `undefined`. `uiAmount` is likewise
optional (`uiTokenAmount?.uiAmount`). -/

structure TokenBalance where
  accountIndex : Nat
  mint : String
  uiAmount : Option ℚ
deriving Repr, DecidableEq

structure TxMeta where
  err : Option String
  logMessages : List String
  preBalances : List Int
  postBalances : List Int
  preTokenBalances : List TokenBalance
  postTokenBalances : List TokenBalance
deriving Repr, DecidableEq

structure TxMessage where
  accountKeys : List String
  /-- each instruction's `programIdIndex` (`none` = the field is undefined). -/
  instructions : List (Option Nat)
deriving Repr, DecidableEq

structure HeliusTransaction where
  signature : String
  slot : Nat
  blockTime : Option Int
  meta : TxMeta
  message : TxMessage
deriving Repr, DecidableEq

/-! ## The detail fetcher
(src/services/heliusApi.ts, `HeliusApiService.fetchTransactionDetails`)

```
let delay = TXN_FETCH_INITIAL_DELAY;
if (TXN_FETCH_FIRST_ATTEMPT_DELAY > 0) { await this.sleep(TXN_FETCH_FIRST_ATTEMPT_DELAY); }
for (let attempt = 1; attempt <= TXN_FETCH_MAX_RETRIES; attempt++) {
  try {
    const response = await fetch(...);
    if (!response.ok) { throw new Error(...); }
    const data = await response.json();
    if (data && data.length > 0) { return data[0] as HeliusTransaction; }
    else { if (attempt < TXN_FETCH_MAX_RETRIES) { await this.sleepWithBackoff(delay);
           delay = Math.min(delay * 1.5, TXN_FETCH_MAX_DELAY); } }
  } catch (error) {
    if (attempt < TXN_FETCH_MAX_RETRIES) { await this.sleepWithBackoff(delay);
      delay = Math.min(delay * 1.5, TXN_FETCH_MAX_DELAY); } }
}
return null;
```

The network is abstracted as an oracle from the attempt number to that
attempt's outcome. Both failure shapes (`noData`: response ok but empty
array; `thrown`: non-ok status, transport or parse error — everything the
`catch` absorbs) take the same retry path; the function itself is total,
mirroring that `fetchTransactionDetails` never throws past its boundary. -/

inductive AttemptOutcome where
  /-- `response.ok` and `data.length > 0`: `data[0]` is returned. -/
  | success (tx : HeliusTransaction)
  /-- `response.ok` but `data` is empty. -/
  | noData
  /-- any thrown error (non-ok HTTP status, transport failure, parse failure). -/
  | thrown
deriving Repr, DecidableEq

structure FetchRun where
  /-- the value `fetchTransactionDetails` resolves with. -/
  result : Option HeliusTransaction
  /-- how many network calls (`fetch(this.API_URL, ...)`) were made. -/
  networkCalls : Nat
  /-- the delays passed to `sleepWithBackoff`, in order (the unconditional
  `TXN_FETCH_FIRST_ATTEMPT_DELAY` wait before the loop is not one of them). -/
  backoffSleeps : List ℚ
deriving Repr, DecidableEq

/-- The attempt loop, structurally recursive on the number of remaining
attempts (`remaining = TXN_FETCH_MAX_RETRIES - attempt + 1`; the
`attempt < TXN_FETCH_MAX_RETRIES` test of the source is `remaining > 1`). -/
def fetchLoop (attempts : Nat → AttemptOutcome) :
    Nat → Nat → ℚ → FetchRun
  | _, 0, _ => ⟨none, 0, []⟩
  | attempt, remaining + 1, delay =>
    match attempts attempt with
    | .success tx => ⟨some tx, 1, []⟩
    | _ =>
      if remaining = 0 then ⟨none, 1, []⟩
      else
        let rest := fetchLoop attempts (attempt + 1) remaining
          (jsMin (delay * (3 / 2)) TXN_FETCH_MAX_DELAY)
        ⟨rest.result, rest.networkCalls + 1, delay :: rest.backoffSleeps⟩

/-- `HeliusApiService.fetchTransactionDetails`, as a run summary. -/
def fetchTransactionDetails (attempts : Nat → AttemptOutcome) : FetchRun :=
  fetchLoop attempts 1 TXN_FETCH_MAX_RETRIES TXN_FETCH_INITIAL_DELAY

lemma fetchLoop_networkCalls_le (attempts : Nat → AttemptOutcome) :
    ∀ remaining attempt delay,
      (fetchLoop attempts attempt remaining delay).networkCalls ≤ remaining := by
  intro remaining
  induction remaining with
  | zero => intro attempt delay; simp [fetchLoop]
  | succ r ih =>
    intro attempt delay
    rcases h : attempts attempt with tx | _ | _
    · simp [fetchLoop, h]
    all_goals
      by_cases hr : r = 0
      all_goals
        simp [fetchLoop, h, hr]
      all_goals
        first
        | exact Nat.succ_le_succ (ih _ _)
        | exact ih _ _

lemma fetchLoop_allFail (attempts : Nat → AttemptOutcome)
    (h : ∀ i tx, attempts i ≠ .success tx) :
    ∀ remaining attempt delay,
      (fetchLoop attempts attempt remaining delay).result = none ∧
        (fetchLoop attempts attempt remaining delay).networkCalls = remaining := by
  intro remaining
  induction remaining with
  | zero => intro attempt delay; simp [fetchLoop]
  | succ r ih =>
    intro attempt delay
    rcases hx : attempts attempt with tx | _ | _
    · exact absurd hx (h attempt tx)
    all_goals
      by_cases hr : r = 0
      all_goals
        simp [fetchLoop, hx, hr]
      all_goals
        exact ⟨(ih _ _).1, (ih _ _).2⟩

/-- Claim C2: the fetcher is a total function (errors are absorbed, never
rethrown); it makes exactly one network call and returns the record when
the first attempt succeeds; it never makes more than the configured
maximum number of attempts (3); and on sustained failure it makes exactly
3 calls and returns null. -/
theorem fetch_contract (attempts : Nat → AttemptOutcome) :
    (fetchTransactionDetails attempts).networkCalls ≤ TXN_FETCH_MAX_RETRIES ∧
    TXN_FETCH_MAX_RETRIES = 3 ∧
    (∀ tx, attempts 1 = AttemptOutcome.success tx →
      (fetchTransactionDetails attempts).result = some tx ∧
        (fetchTransactionDetails attempts).networkCalls = 1) ∧
    ((∀ i tx, attempts i ≠ AttemptOutcome.success tx) →
      (fetchTransactionDetails attempts).result = none ∧
        (fetchTransactionDetails attempts).networkCalls = 3) := by
  refine ⟨fetchLoop_networkCalls_le attempts _ _ _, rfl, ?_, ?_⟩
  · intro tx h
    simp [fetchTransactionDetails, TXN_FETCH_MAX_RETRIES, fetchLoop, h]
  · intro h
    exact fetchLoop_allFail attempts h _ _ _

/-- A transaction record used for concrete instances. -/
def sampleTx : HeliusTransaction :=
  { signature := "5gs"
    slot := 351844062
    blockTime := some 1750000000
    meta :=
      { err := none
        logMessages := []
        preBalances := []
        postBalances := []
        preTokenBalances := []
        postTokenBalances := [] }
    message := { accountKeys := [], instructions := [] } }

/-- Witness for `fetch_contract`: first-attempt success gives one call and
the record; an always-empty endpoint gives three calls and null. -/
theorem fetch_contract_witness :
    ((fetchTransactionDetails fun _ => AttemptOutcome.success sampleTx).result
        = some sampleTx ∧
      (fetchTransactionDetails fun _ => AttemptOutcome.success sampleTx).networkCalls
        = 1) ∧
    ((fetchTransactionDetails fun _ => AttemptOutcome.noData).result = none ∧
      (fetchTransactionDetails fun _ => AttemptOutcome.noData).networkCalls = 3) :=
  ⟨(fetch_contract fun _ => AttemptOutcome.success sampleTx).2.2.1 sampleTx rfl,
   (fetch_contract fun _ => AttemptOutcome.noData).2.2.2
     (fun _ _ h => nomatch h)⟩

/-! ## Backoff recurrence

Both retry loops update their delay by `delay = Math.min(delay * 1.5, MAX)`
(with 1.5 = 3/2 exact in binary floating point). `backoffIter I M N` is the
delay value after `N` such updates starting from `I`. -/

def backoffIter (I M : ℚ) : Nat → ℚ
  | 0 => I
  | n + 1 => jsMin (backoffIter I M n * (3 / 2)) M

/-- The iterated capped update has the closed form `min (I * 1.5 ^ N) M`. -/
lemma backoffIter_closed_form (I M : ℚ) (h0 : 0 ≤ I) (hIM : I ≤ M) :
    ∀ N, backoffIter I M N = min (I * (3 / 2) ^ N) M := by
  intro N
  induction N with
  | zero => simp [backoffIter, min_eq_left hIM]
  | succ n ih =>
    rw [backoffIter, jsMin_eq_min, ih]
    rcases le_or_lt (I * (3 / 2) ^ n) M with hle | hlt
    · rw [min_eq_left hle, pow_succ, ← mul_assoc]
    · have hM0 : 0 ≤ M := le_trans h0 hIM
      have hMM : M ≤ M * (3 / 2) := by nlinarith
      have hgrow : M ≤ I * (3 / 2) ^ (n + 1) := by
        have hpos : (0 : ℚ) ≤ I * (3 / 2) ^ n := by positivity
        rw [pow_succ, ← mul_assoc]
        nlinarith
      rw [min_eq_right hlt.le, min_eq_right hMM, min_eq_right hgrow]

/-! ## WebSocket manager lifecycle
(src/services/websocketManager.ts, `WebSocketManager`)

The manager's mutable fields become an explicit state record. `ws` itself
is reduced to whether a transport handle is present; timers are reduced to
the actions they schedule. -/

structure ManagerState where
  /-- `this.ws` is non-null. -/
  wsPresent : Bool
  /-- `this.subscriptionId` (`none` = null). -/
  subscriptionId : Option Nat
  /-- `this.retryCount`. -/
  retryCount : Nat
  /-- `this.retryDelay`. -/
  retryDelay : ℚ
  /-- `this.heartbeatInterval` is set. -/
  heartbeatOn : Bool
deriving Repr, DecidableEq

/-- An outbound JSON-RPC request the manager writes to the socket. -/
inductive OutboundMessage where
  /-- `{jsonrpc:"2.0", id, method:"logsSubscribe",
  params:[{mentions}, {commitment:"confirmed", encoding:"jsonParsed"}]}`. -/
  | subscribeReq (id : Nat) (mentions : List String)
  /-- `{jsonrpc:"2.0", id, method:"logsUnsubscribe", params:[handle]}`. -/
  | unsubscribeReq (id : Nat) (handle : Nat)
deriving Repr, DecidableEq

/-- What one call to `reconnect()` does besides updating the state. -/
inductive ReconnectAction where
  /-- a reconnect was scheduled: `setTimeout(() => { retryDelay =
  Math.min(retryDelay * 1.5, MAX_RETRY_DELAY); this.initialize(); },
  retryDelay)` — the wait is the pre-update `retryDelay`. -/
  | scheduledReconnect (waitMs : ℚ)
  /-- `process.exit(1)`. -/
  | exitProcess (code : Nat)
deriving Repr, DecidableEq

/-- `WebSocketManager.reconnect()`. The returned state is the one the
scheduled callback leaves behind right before it re-opens the connection
(count already incremented, delay already multiplied and capped). -/
def reconnect (s : ManagerState) : ManagerState × ReconnectAction :=
  if s.retryCount < MAX_RETRIES then
    ({ s with
        retryCount := s.retryCount + 1
        retryDelay := jsMin (s.retryDelay * (3 / 2)) MAX_RETRY_DELAY },
      .scheduledReconnect s.retryDelay)
  else
    (s, .exitProcess 1)

/-- The `ws.onopen` handler: reset the retry counter and delay, send the
subscribe request (correlation id 1, mentions = the watched address),
start the heartbeat. -/
def onOpen (s : ManagerState) : ManagerState × OutboundMessage :=
  ({ s with
      wsPresent := true
      retryCount := 0
      retryDelay := INITIAL_RETRY_DELAY
      heartbeatOn := true },
    .subscribeReq 1 [LP_ACCOUNT_ADDRESS])

/-- The `ws.onclose` handler: clear the subscription handle, stop the
heartbeat, and call `reconnect()`. -/
def onClose (s : ManagerState) : ManagerState × ReconnectAction :=
  reconnect
    { s with subscriptionId := none, heartbeatOn := false }

/-- The waits of the reconnects scheduled by `n` consecutive close events
with no intervening open (stops early if `reconnect()` exits instead). -/
def consecutiveCloseWaits : Nat → ManagerState → List ℚ
  | 0, _ => []
  | n + 1, s =>
    match onClose s with
    | (s1, .scheduledReconnect w) => w :: consecutiveCloseWaits n s1
    | (_, .exitProcess _) => []

/-- Iterated close events (state only). -/
def stateAfterCloses : Nat → ManagerState → ManagerState
  | 0, s => s
  | n + 1, s => stateAfterCloses n (onClose s).1

/-- The manager state right after a fresh, opened, confirmed connection. -/
def freshManagerState : ManagerState :=
  { wsPresent := true
    subscriptionId := some 42
    retryCount := 0
    retryDelay := INITIAL_RETRY_DELAY
    heartbeatOn := true }

/-- Claim C5: on a connection close below the retry budget, the counter is
incremented and a reconnect is scheduled after the current backoff delay,
which is then multiplied by 1.5 and capped at 30000; at or above the
budget the process exits with code 1. Defaults: budget 10, initial delay
1000, cap 30000. From a fresh connection, the budget allows exactly 10
scheduled reconnects: the 11th consecutive close exits. -/
theorem reconnect_policy (s : ManagerState) :
    (s.retryCount < MAX_RETRIES →
      (onClose s).2 = ReconnectAction.scheduledReconnect s.retryDelay ∧
      (onClose s).1.retryCount = s.retryCount + 1 ∧
      (onClose s).1.retryDelay = min (s.retryDelay * (3 / 2)) MAX_RETRY_DELAY) ∧
    (MAX_RETRIES ≤ s.retryCount →
      (onClose s).2 = ReconnectAction.exitProcess 1) ∧
    MAX_RETRIES = 10 ∧ INITIAL_RETRY_DELAY = 1000 ∧ MAX_RETRY_DELAY = 30000 ∧
    (consecutiveCloseWaits 11 freshManagerState).length = 10 ∧
    (onClose (stateAfterCloses 10 freshManagerState)).2
      = ReconnectAction.exitProcess 1 := by
  refine ⟨?_, ?_, rfl, rfl, rfl, by decide, by decide⟩
  · intro h
    simp [onClose, reconnect, h, jsMin_eq_min]
  · intro h
    simp [onClose, reconnect, Nat.not_lt_of_le h]

/-- Witness for `reconnect_policy` at a mid-run state (3 failures so far)
and at an exhausted state (count 10). -/
theorem reconnect_policy_witness :
    (3 < MAX_RETRIES ∧
      (onClose ⟨true, none, 3, 2250, false⟩).1.retryCount = 4) ∧
    (MAX_RETRIES ≤ 10 ∧
      (onClose ⟨true, none, 10, 30000, false⟩).2
        = ReconnectAction.exitProcess 1) :=
  ⟨⟨by decide, ((reconnect_policy ⟨true, none, 3, 2250, false⟩).1
      (by decide)).2.1⟩,
   ⟨by decide, (reconnect_policy ⟨true, none, 10, 30000, false⟩).2.1
      (by decide)⟩⟩

/-- Claim C10: whenever the transport-level open event fires, the
reconnect counter is reset to 0 and the backoff delay to its initial
value (1000), whatever state — however many reconnect attempts — preceded
it; the handler also sends the subscribe request with correlation id 1
for the watched address. -/
theorem open_resets_retry_state (s : ManagerState) :
    (onOpen s).1.retryCount = 0 ∧
    (onOpen s).1.retryDelay = INITIAL_RETRY_DELAY ∧
    INITIAL_RETRY_DELAY = 1000 ∧
    (onOpen s).2 = OutboundMessage.subscribeReq 1 [LP_ACCOUNT_ADDRESS] :=
  ⟨rfl, rfl, rfl, rfl⟩

/-- An endpoint that keeps answering with an empty transaction array. -/
def emptyEndpoint : Nat → AttemptOutcome := fun _ => AttemptOutcome.noData

/-- The full sustained-failure fetch run at the default configuration:
three calls, two backoff sleeps, null result. -/
lemma fetch_empty_run :
    fetchTransactionDetails emptyEndpoint
      = ⟨none, 3, [2000, 3000]⟩ := by
  norm_num [fetchTransactionDetails, TXN_FETCH_MAX_RETRIES,
    TXN_FETCH_INITIAL_DELAY, TXN_FETCH_MAX_DELAY, fetchLoop,
    emptyEndpoint, jsMin]

/-- `backoffIter` restarted from the once-updated delay drops one step. -/
lemma backoffIter_shift (I M : ℚ) :
    ∀ k, backoffIter I M (k + 1) = backoffIter (jsMin (I * (3 / 2)) M) M k := by
  intro k
  induction k with
  | zero => rfl
  | succ n ih => rw [backoffIter, ih, backoffIter]

/-- As long as the retry budget is not exhausted, the waits of consecutive
close events are exactly the backoff iterates of the starting delay. -/
lemma consecutiveCloseWaits_formula :
    ∀ (n : Nat) (s : ManagerState), s.retryCount + n ≤ MAX_RETRIES →
      consecutiveCloseWaits n s
        = (List.range n).map (backoffIter s.retryDelay MAX_RETRY_DELAY) := by
  intro n
  induction n with
  | zero => intro s _; simp [consecutiveCloseWaits]
  | succ n ih =>
    intro s h
    have hlt : s.retryCount < MAX_RETRIES := by omega
    have hstep : onClose s
        = ({ s with
              subscriptionId := none
              heartbeatOn := false
              retryCount := s.retryCount + 1
              retryDelay := jsMin (s.retryDelay * (3 / 2)) MAX_RETRY_DELAY },
            .scheduledReconnect s.retryDelay) := by
      simp [onClose, reconnect, hlt]
    rw [consecutiveCloseWaits, hstep]
    dsimp only
    rw [ih _ (by dsimp only; omega)]
    rw [List.range_succ_eq_map, List.map_cons, List.map_map]
    refine congrArg₂ _ rfl (List.map_congr_left fun k _ => ?_)
    simp [Function.comp, backoffIter_shift]

/-- Counterexample to claim C6 as stated: with the fetch defaults (initial
2000, max 10000, 3 attempts) the delays actually slept on sustained
failure are 2000 and 3000 only — the loop never sleeps after its final
attempt, so no 4500 delay occurs. -/
theorem fetch_backoff_sequence_cex :
    (fetchTransactionDetails emptyEndpoint).backoffSleeps = [2000, 3000] ∧
      (fetchTransactionDetails emptyEndpoint).backoffSleeps
        ≠ [2000, 3000, 4500] := by
  rw [fetch_empty_run]
  norm_num

/-- Claim C6, amended: for both loops the delay slept after the Nth
consecutive failure (N counted from 0), whenever a sleep occurs, is the
iterated capped update `backoffIter initial max N`, and that iterate
equals `min (initial * 1.5 ^ N) max`; with the fetch defaults the slept
delays are exactly 2000 then 3000 (the value 4500 = min(2000 * 1.5^2,
10000) is computed into the delay variable but never slept, the attempt
budget being exhausted), and ten consecutive closes wait
`min (1000 * 1.5 ^ N) 30000` for N = 0..9. -/
theorem backoff_delay_formula :
    (∀ I M : ℚ, 0 ≤ I → I ≤ M →
      ∀ N, backoffIter I M N = min (I * (3 / 2) ^ N) M) ∧
    (fetchTransactionDetails emptyEndpoint).backoffSleeps
      = [backoffIter TXN_FETCH_INITIAL_DELAY TXN_FETCH_MAX_DELAY 0,
         backoffIter TXN_FETCH_INITIAL_DELAY TXN_FETCH_MAX_DELAY 1] ∧
    (fetchTransactionDetails emptyEndpoint).backoffSleeps = [2000, 3000] ∧
    backoffIter TXN_FETCH_INITIAL_DELAY TXN_FETCH_MAX_DELAY 2 = 4500 ∧
    consecutiveCloseWaits 10 freshManagerState
      = (List.range 10).map (backoffIter INITIAL_RETRY_DELAY MAX_RETRY_DELAY) := by
  refine ⟨backoffIter_closed_form, ?_, ?_, ?_, ?_⟩
  · rw [fetch_empty_run]
    norm_num [backoffIter, TXN_FETCH_INITIAL_DELAY, TXN_FETCH_MAX_DELAY, jsMin]
  · rw [fetch_empty_run]
  · norm_num [backoffIter, TXN_FETCH_INITIAL_DELAY, TXN_FETCH_MAX_DELAY, jsMin]
  · exact consecutiveCloseWaits_formula 10 freshManagerState (by decide)

/-- Witness for `backoff_delay_formula`: the closed form evaluated at the
fetch defaults gives the capped third value 4500. -/
theorem backoff_delay_formula_witness :
    (0 : ℚ) ≤ 2000 ∧ (2000 : ℚ) ≤ 10000 ∧
      backoffIter 2000 10000 2 = min (2000 * (3 / 2) ^ 2) 10000 :=
  ⟨by norm_num, by norm_num,
    backoff_delay_formula.1 2000 10000 (by norm_num) (by norm_num) 2⟩

/-! ## Graceful shutdown
(src/services/websocketManager.ts, `WebSocketManager.shutdown`)

```
if (this.ws && this.subscriptionId) {
  this.ws.send(JSON.stringify({jsonrpc:"2.0", id:999, method:"logsUnsubscribe",
                               params:[this.subscriptionId]}));
}
this.stopHeartbeat();
if (this.ws) { this.ws.close(); }
setTimeout(() => { process.exit(0); }, 1000);
```

`this.ws.close()` makes the transport emit its close event, and the
`ws.onclose` handler installed when the connection was opened runs
unchanged — there is no shutting-down flag — so it clears the handle,
stops the heartbeat and calls `reconnect()`. JavaScript truthiness on
`this.subscriptionId` means a handle of 0 would be treated as absent. -/

structure ShutdownTrace where
  /-- requests written to the socket before `close()` is called. -/
  sentBeforeClose : List OutboundMessage
  /-- `this.ws.close()` was called. -/
  transportClosed : Bool
  /-- the close event's `reconnect()` call took its retry branch
  (incremented the counter and scheduled a reconnect). -/
  reconnectAttempted : Bool
  /-- the `process.exit(0)` grace timer was scheduled. -/
  exitZeroScheduled : Bool
  finalState : ManagerState
deriving Repr, DecidableEq

def shutdown (s : ManagerState) : ShutdownTrace :=
  let msgs :=
    match s.subscriptionId with
    | some handle =>
      if s.wsPresent && handle != 0 then [OutboundMessage.unsubscribeReq 999 handle]
      else []
    | none => []
  let s1 := { s with heartbeatOn := false }
  if s.wsPresent then
    match onClose s1 with
    | (s2, act) =>
      { sentBeforeClose := msgs
        transportClosed := true
        reconnectAttempted :=
          match act with
          | .scheduledReconnect _ => true
          | .exitProcess _ => false
        exitZeroScheduled := true
        finalState := s2 }
  else
    { sentBeforeClose := msgs
      transportClosed := false
      reconnectAttempted := false
      exitZeroScheduled := true
      finalState := s1 }

/-- Claim C3 (code bug): shutting down with an active subscription handle
does send exactly one unsubscribe request (id 999, params the handle)
before closing the transport — but the close event then runs the
unguarded `onclose` handler, which calls `reconnect()`: the retry counter
is incremented and a reconnect of the just-shut-down connection is
scheduled, contradicting "never triggers a reconnect attempt
afterward". -/
theorem shutdown_retriggers_reconnect :
    (shutdown freshManagerState).sentBeforeClose
      = [OutboundMessage.unsubscribeReq 999 42] ∧
    (shutdown freshManagerState).transportClosed = true ∧
    (shutdown freshManagerState).exitZeroScheduled = true ∧
    (shutdown freshManagerState).reconnectAttempted = true ∧
    (shutdown freshManagerState).finalState.retryCount = 1 := by
  decide

/-! ## Transaction analysis
(src/services/transactionAnalyzer.ts, `TransactionAnalyzer`)

`analyzeTransaction` begins with
`const timestamp = new Date(tx.blockTime * 1000).toISOString();`.
When the `blockTime` field is absent, `tx.blockTime` reads as
`undefined`; `undefined * 1000` is `NaN`; `new Date(NaN)` is an Invalid
Date, and `toISOString()` on it THROWS `RangeError: Invalid time value`.
That throw is made explicit with `Except`; a present block time yields a
rendering of the millisecond value (the exact ISO text is irrelevant to
every claim). -/

def jsDateToISOString (blockTime : Option Int) : Except String String :=
  match blockTime with
  | none => .error "RangeError: Invalid time value"
  | some t => .ok (toString (t * 1000))

/-- The per-log-line predicate of `analyzeRelevantLogs` — the display
filter, distinct from the fetch gate: it checks case-insensitive
"liquidity" as well as "pool". -/
def isRelevantDisplayLog (log : String) : Bool :=
  strIncludes log "swap" ||
  strIncludes log "Meteora" ||
  strIncludes log "DAMM" ||
  METEORA_PROGRAMS.any (fun programId => strIncludes log programId) ||
  strIncludes log LP_ACCOUNT_ADDRESS ||
  strIncludes (strToLower log) "liquidity" ||
  strIncludes (strToLower log) "pool"

structure BalanceChange where
  account : String
  change : ℚ
deriving Repr, DecidableEq

/-- The loop body of `analyzeSolBalanceChanges` at index `i`:
`preBalances[i] || 0`, `postBalances[i] || 0` (an out-of-range read is
`undefined`, coalesced to 0 — and `|| 0` maps a present 0 to 0 as well,
which `getD` matches), report `change / 1e9` when `change !== 0`. -/
def solChangeAt (accountKeys : List String) (pre post : List Int) (i : Nat) :
    Option BalanceChange :=
  let preBalance := pre.getD i 0
  let postBalance := post.getD i 0
  let change := postBalance - preBalance
  if change ≠ 0 then
    some { account := accountKeys.getD i "", change := (change : ℚ) / 1000000000 }
  else
    none

/-- `TransactionAnalyzer.analyzeSolBalanceChanges`: the loop runs over the
indices of `accountKeys`. -/
def analyzeSolBalanceChanges (accountKeys : List String) (pre post : List Int) :
    List BalanceChange :=
  (List.range accountKeys.length).filterMap (solChangeAt accountKeys pre post)

/-! Token balance changes. The code builds two JavaScript `Map`s keyed by
the string `` `${accountIndex}-${mint}` ``, iterates the insertion-ordered
union of the key sets, and for each key compares
`preBalance?.uiTokenAmount?.uiAmount || 0` with the post counterpart. -/

def tokenKey (b : TokenBalance) : String :=
  toString b.accountIndex ++ "-" ++ b.mint

/-- `Map.get` after the `forEach`/`set` loop: the last entry with the key
won (`set` overwrites). -/
def mapGet (l : List TokenBalance) (key : String) : Option TokenBalance :=
  l.reverse.find? (fun b => tokenKey b == key)

/-- JavaScript `Set` insertion order: first occurrence kept. -/
def dedupFirst (l : List String) : List String :=
  l.foldl (fun acc k => if k ∈ acc then acc else acc ++ [k]) []

/-- `balance?.uiTokenAmount?.uiAmount || 0`. -/
def amountOf : Option TokenBalance → ℚ
  | none => 0
  | some b => b.uiAmount.getD 0

/-- `const change = postAmount - preAmount` for one key. -/
def tokenPairChange (pre post : Option TokenBalance) : ℚ :=
  amountOf post - amountOf pre

/-- `Math.abs(change) > 0.000001` — the dust gate for one key. -/
def tokenPairReported (pre post : Option TokenBalance) : Bool :=
  decide (|tokenPairChange pre post| > (1 : ℚ) / 1000000)

structure TokenChangeReport where
  /-- `accountKeys[tokenBalance.accountIndex]` (`none` = out of range,
  printed as undefined). -/
  account : Option String
  mint : String
  change : ℚ
deriving Repr, DecidableEq

/-- `TransactionAnalyzer.analyzeTokenBalanceChanges`. The source guards
the whole block with `pre.length > 0 || post.length > 0`, but with both
lists empty the key union is empty anyway, so the reported list is the
same. -/
def analyzeTokenBalanceChanges (tx : HeliusTransaction) : List TokenChangeReport :=
  let preList := tx.meta.preTokenBalances
  let postList := tx.meta.postTokenBalances
  (dedupFirst (preList.map tokenKey ++ postList.map tokenKey)).filterMap
    fun key =>
      let preBalance := mapGet preList key
      let postBalance := mapGet postList key
      if tokenPairReported preBalance postBalance then
        match postBalance.or preBalance with
        | some tb =>
          some { account := tx.message.accountKeys.get? tb.accountIndex
                 mint := tb.mint
                 change := tokenPairChange preBalance postBalance }
        | none => none
      else
        none

/-- `analyzeProgramsInvolved`: collect `accountKeys[ix.programIdIndex]`
for each instruction whose `programIdIndex !== undefined` and whose
resolved key is truthy (a missing or empty key is skipped). -/
def programsInvolved (tx : HeliusTransaction) : List String :=
  dedupFirst
    (tx.message.instructions.filterMap fun ix =>
      match ix with
      | some idx =>
        match tx.message.accountKeys.get? idx with
        | some key => if key = "" then none else some key
        | none => none
      | none => none)

structure AnalysisReport where
  timestamp : String
  failed : Bool
  relevantLogs : List String
  solChanges : List BalanceChange
  tokenChanges : List TokenChangeReport
  programsInvoked : List String
deriving Repr, DecidableEq

/-- `TransactionAnalyzer.analyzeTransaction`: the timestamp line runs
first, so its throw aborts the whole analysis; the remaining steps are
total. -/
def analyzeTransaction (tx : HeliusTransaction) : Except String AnalysisReport :=
  match jsDateToISOString tx.blockTime with
  | .error e => .error e
  | .ok ts =>
    .ok { timestamp := ts
          failed := tx.meta.err.isSome
          relevantLogs := tx.meta.logMessages.filter isRelevantDisplayLog
          solChanges := analyzeSolBalanceChanges tx.message.accountKeys
            tx.meta.preBalances tx.meta.postBalances
          tokenChanges := analyzeTokenBalanceChanges tx
          programsInvoked := programsInvolved tx }

/-- A fetched record whose block-time field is absent (Helius can return
such records; `fetchTransactionDetails` forwards `data[0]` with a bare
cast and no validation). -/
def txWithoutBlockTime : HeliusTransaction :=
  { sampleTx with blockTime := none }

/-- Claim C4 (code bug): the analysis step faults on an absent block
time — `new Date(undefined * 1000).toISOString()` throws `RangeError`
before any other analysis line runs — while a present block time
analyzes cleanly. -/
theorem analyze_faults_on_absent_blockTime :
    analyzeTransaction txWithoutBlockTime
        = Except.error "RangeError: Invalid time value" ∧
      analyzeTransaction sampleTx ≠ Except.error "RangeError: Invalid time value" := by
  constructor
  · rfl
  · intro h
    simp [analyzeTransaction, jsDateToISOString, sampleTx] at h

/-! ## Dispatch from notification to analyzer
(src/services/websocketManager.ts, `handleMessage`, notification branch)

```
if (signature && logData.value?.logs) {
  const relevantLogs = ... (the fetch gate) ...
  if (relevantLogs.length > 0) {
    const transaction = await HeliusApiService.fetchTransactionDetails(signature);
    if (transaction) { TransactionAnalyzer.analyzeTransaction(transaction); }
  }
}
```

The fetch is abstracted by its result (`none` = retries exhausted, null
returned). The function returns the list of records handed to the
analyzer while handling one notification. -/

def analyzerCallsFor (fetched : Option HeliusTransaction) : List HeliusTransaction :=
  match fetched with
  | some tx => [tx]
  | none => []

def handleLogsNotification (signature : Option String)
    (logs : Option (List String)) (fetched : Option HeliusTransaction) :
    List HeliusTransaction :=
  match signature, logs with
  | some _, some ls =>
    if notificationTriggersFetch ls then analyzerCallsFor fetched else []
  | _, _ => []

/-- Claim C7: the analyzer is invoked only with the record of a
successful fetch — a null fetch result (retry exhaustion) produces no
analysis call, and any record analyzed is exactly the fetched one. -/
theorem analyzer_only_after_successful_fetch (signature : Option String)
    (logs : Option (List String)) (fetched : Option HeliusTransaction) :
    (fetched = none → handleLogsNotification signature logs fetched = []) ∧
    (∀ tx, tx ∈ handleLogsNotification signature logs fetched →
      fetched = some tx) := by
  constructor
  · rintro rfl
    rcases signature with _ | sig <;> rcases logs with _ | ls <;>
      simp [handleLogsNotification, analyzerCallsFor]
  · intro tx htx
    rcases signature with _ | sig <;> rcases logs with _ | ls <;>
      simp [handleLogsNotification] at htx
    rcases htx with ⟨-, htx⟩
    rcases fetched with _ | tx1 <;> simp [analyzerCallsFor] at htx
    rw [htx]

/-- Witness for `analyzer_only_after_successful_fetch`: a relevant
notification whose fetch exhausted retries yields no analyzer call. -/
theorem analyzer_only_after_successful_fetch_witness :
    handleLogsNotification (some "5gs") (some ["swap"]) none = [] :=
  (analyzer_only_after_successful_fetch (some "5gs") (some ["swap"]) none).1 rfl

/-- Claim C8: a token balance change for a (accountIndex, mint) key is
reported iff the absolute delta strictly exceeds 0.000001; a delta of
exactly 0.000001 is suppressed as dust and 0.0000011 is reported. -/
theorem token_dust_threshold :
    (∀ pre post : Option TokenBalance,
      tokenPairReported pre post = true ↔
        |tokenPairChange pre post| > (1 : ℚ) / 1000000) ∧
    tokenPairReported none
      (some { accountIndex := 0, mint := "M", uiAmount := some ((1 : ℚ) / 1000000) })
      = false ∧
    tokenPairReported none
      (some { accountIndex := 0, mint := "M", uiAmount := some ((11 : ℚ) / 10000000) })
      = true := by
  refine ⟨fun pre post => by simp [tokenPairReported], ?_, ?_⟩
  · simp [tokenPairReported, tokenPairChange, amountOf]
    norm_num [abs_of_nonneg]
  · simp [tokenPairReported, tokenPairChange, amountOf]
    norm_num [abs_of_nonneg]

/-- Claim C9: for every index in the account-key list, a SOL balance
change is reported iff post minus pre (absent entries count 0) is
nonzero, the reported value is that difference divided by 1e9, and the
concrete one-account case 1000000000 → 1500000000 yields exactly +0.5. -/
theorem sol_balance_change_characterization (accountKeys : List String)
    (pre post : List Int) (i : Nat) (hi : i < accountKeys.length) :
    (solChangeAt accountKeys pre post i = none ↔
      post.getD i 0 = pre.getD i 0) ∧
    (∀ c, solChangeAt accountKeys pre post i = some c →
      c.change = ((post.getD i 0 - pre.getD i 0 : Int) : ℚ) / 1000000000 ∧
        c.account = accountKeys.get ⟨i, hi⟩) ∧
    analyzeSolBalanceChanges ["LP"] [1000000000] [1500000000]
      = [{ account := "LP", change := 1 / 2 }] := by
  have hacct : accountKeys.getD i "" = accountKeys.get ⟨i, hi⟩ := by
    simp [List.getD_eq_getElem?_getD, List.getElem?_eq_getElem hi]
  refine ⟨?_, ?_, ?_⟩
  · simp [solChangeAt, sub_eq_zero]
  · intro c hc
    simp only [solChangeAt] at hc
    split at hc
    · cases hc; exact ⟨rfl, hacct⟩
    · exact Option.noConfusion hc
  · have h0 : ((1500000000 : Int) - 1000000000 : Int) ≠ 0 := by decide
    simp [analyzeSolBalanceChanges, List.range_succ, solChangeAt]
    norm_num

/-- Witness for `sol_balance_change_characterization` at the concrete
one-account transaction of the claim. -/
theorem sol_balance_change_witness :
    (0 < (["LP"] : List String).length) ∧
    analyzeSolBalanceChanges ["LP"] [1000000000] [1500000000]
      = [{ account := "LP", change := 1 / 2 }] :=
  ⟨by decide,
    (sol_balance_change_characterization ["LP"] [1000000000] [1500000000] 0
      (by decide)).2.2⟩

end LpIndexer
